import Mathlib

/-
Verification of the topology refactoring core of the replication
orchestrator (src/src/github.com/outbrain/orchestrator/inst/instance_topology.go).

The Go operators call package-level collaborators (inventory reads, the
replication driver, the maintenance-lock service, the pseudo-GTID matcher
and audit).  Those collaborators live outside the given source file, so
they are modelled as an abstract environment `Env` of response functions;
the operators themselves are translated line by line from the source.
Every lock, driver and audit call an operator issues is recorded in an
event trace, so that ordering and cleanup properties can be stated about
the calls actually made.  The Go `goto Cleanup` sections are translated as
explicit cleanup helper functions, and `defer EndMaintenance(...)` is
translated by appending the EndMaintenance events in reverse acquisition
order at function exit, which is Go's deferred-call semantics.
-/

namespace Orchestrator

/-- Stable identity of one database node: host and port
    (the `InstanceKey` used throughout instance_topology.go). -/
structure InstanceKey where
  host : String
  port : Nat
deriving DecidableEq

/-- Modelled from the spec: a BinlogCoordinate is an ordered pair
    (file name, offset).  The type itself lives in the inventory package,
    which is not under src/; the spec defines its total order: first by
    file name, then by offset. -/
structure BinlogCoordinates where
  logFile : String
  logPos : Nat
deriving DecidableEq

/-- Character-wise lexicographic comparison of two strings, written out
    so that it evaluates inside the kernel. -/
def strLtAux : List Char → List Char → Bool
  | [], [] => false
  | [], _ :: _ => true
  | _ :: _, [] => false
  | a :: as, b :: bs =>
    if a.toNat < b.toNat then true
    else if a.toNat == b.toNat then strLtAux as bs else false

/-- Modelled from the spec: `SmallerThan` is the strict total order on
    coordinates, first by file name (lexicographically), then by offset. -/
def SmallerThan (a b : BinlogCoordinates) : Bool :=
  strLtAux a.logFile.data b.logFile.data ||
    (a.logFile == b.logFile && decide (a.logPos < b.logPos))

/-- Snapshot of one replication participant.  The fields mirror the
    `Instance` fields and boolean methods the source file consults:
    `IsSlave()`, `SlaveRunning()`, `SQLThreadUpToDate()` and
    `IsLastCheckValid` are modelled as stored flags because their
    definitions are outside src/. -/
structure Instance where
  key : InstanceKey
  masterKey : InstanceKey
  selfBinlogCoordinates : BinlogCoordinates
  execBinlogCoordinates : BinlogCoordinates
  isSlaveFlag : Bool
  slaveRunningFlag : Bool
  sqlThreadUpToDateFlag : Bool
  isLastCheckValid : Bool
deriving DecidableEq

/-- Error values: Go errors are strings built with fmt.Sprintf. -/
abbrev ErrMsg := String

/-- Rendering of a key inside error messages (stands for Go's `%+v`). -/
def displayKey (k : InstanceKey) : String :=
  k.host ++ ":" ++ toString k.port

/-- Message of `Cannot begin maintenance on %+v` (lines 144, 150, 219,
    225, 304, 310, 344, 410, 418, 532, 582 of the source). -/
def cannotBeginMaintenanceMsg (k : InstanceKey) : ErrMsg :=
  "Cannot begin maintenance on " ++ displayKey k

/-- Message of line 122: `instance is not a slave`. -/
def notASlaveMsg (k : InstanceKey) : ErrMsg :=
  "instance is not a slave: " ++ displayKey k

/-- Message of line 130: GetInstanceMaster failure wrapper. -/
def cannotGetMasterMsg (e : ErrMsg) : ErrMsg :=
  "Cannot GetInstanceMaster: " ++ e

/-- Message of line 134: `master is not a slave itself`. -/
def masterNotSlaveMsg (k : InstanceKey) : ErrMsg :=
  "master is not a slave itself: " ++ displayKey k

/-- Message of line 210: `instances are not siblings`. -/
def notSiblingsMsg (a b : InstanceKey) : ErrMsg :=
  "instances are not siblings: " ++ displayKey a ++ ", " ++ displayKey b

/-- Message of line 293: `instance is already co master`. -/
def alreadyCoMasterMsg (a b : InstanceKey) : ErrMsg :=
  "instance " ++ displayKey a ++ " is already co master of " ++ displayKey b

/-- Message of line 296: `master already has known master`. -/
def knownMasterMsg (a b : InstanceKey) : ErrMsg :=
  "master " ++ displayKey a ++ " already has known master: " ++ displayKey b

/-- Message of line 386: MatchBelow refusing to match a node below itself. -/
def matchBelowSelfMsg (k : InstanceKey) : ErrMsg :=
  "MatchBelow: attempt to match an instance below itself " ++ displayKey k

/-- Message of line 512: the instance's master seems to be replicating. -/
def makeMasterReplicatingMsg (k : InstanceKey) : ErrMsg :=
  "MakeMaster: instance's master " ++ displayKey k ++ " seems to be replicating"

/-- Message of line 515: the instance's master seems to be accessible. -/
def makeMasterAccessibleMsg (k : InstanceKey) : ErrMsg :=
  "MakeMaster: instance's master " ++ displayKey k ++ " seems to be accessible"

/-- Message of line 519: the SQL thread must be up to date. -/
def makeMasterSqlThreadMsg (k : InstanceKey) : ErrMsg :=
  "MakeMaster: instance's SQL thread must be up-to-date with I/O thread for "
    ++ displayKey k

/-- Message of lines 527 and 577: a more advanced sibling exists. -/
def moreAdvancedSiblingMsg (a b : InstanceKey) : ErrMsg :=
  "MakeMaster: instance " ++ displayKey a ++ " has more advanced sibling: "
    ++ displayKey b

/-- One remote call issued by an operator, in program order.  Lock,
    driver and audit calls are recorded; read-only inventory and prober
    calls are not, since the claims are about mutations, leases and
    audits. -/
inductive Event where
  | stopSlave (k : InstanceKey)
  | stopSlaveNicely (k : InstanceKey)
  | startSlave (k : InstanceKey)
  | startSlaveUntil (k : InstanceKey) (c : BinlogCoordinates)
  | changeMasterTo (k : InstanceKey) (m : InstanceKey) (c : BinlogCoordinates)
  | resetSlave (k : InstanceKey)
  | setReadOnly (k : InstanceKey) (b : Bool)
  | beginMaintenance (k : InstanceKey)
  | endMaintenance (k : InstanceKey)
  | audit (op : String) (k : InstanceKey)
deriving DecidableEq

/-- What an operator returns: the final `*Instance`, the final `error`,
    and the trace of calls it issued. -/
structure OpResult where
  inst : Instance
  err : Option ErrMsg
  trace : List Event
deriving DecidableEq

/-- Responses of the external collaborators.  Every Go function the
    source file calls and that is defined outside the file appears here
    as a response function; driver calls follow the spec's driver
    contract `(NodeKey, ...) → (Node, err)`.  `Option ErrMsg = none`
    models a nil Go error.  The eligibility predicates return `none`
    when the move is allowed and `some reason` when refused, which is
    the spec's `(bool, reason error)` contract. -/
structure Env where
  readTopologyInstance : InstanceKey → Instance × Option ErrMsg
  readInstance : InstanceKey → Instance × Bool × Option ErrMsg
  readSlaveInstances : InstanceKey → List Instance × Option ErrMsg
  readClusterInstances : String → List Instance × Option ErrMsg
  canMove : Instance → Option ErrMsg
  canMoveAsCoMaster : Instance → Option ErrMsg
  canMoveViaMatch : Instance → Option ErrMsg
  canReplicateFrom : Instance → Instance → Option ErrMsg
  beginMaintenance : InstanceKey → Option ErrMsg
  stopSlave : InstanceKey → Instance × Option ErrMsg
  stopSlaveNicely : InstanceKey → Instance × Option ErrMsg
  startSlave : InstanceKey → Instance × Option ErrMsg
  startSlaveUntilMasterCoordinates :
    InstanceKey → BinlogCoordinates → Instance × Option ErrMsg
  changeMasterTo :
    InstanceKey → InstanceKey → BinlogCoordinates → Instance × Option ErrMsg
  resetSlave : InstanceKey → Instance × Option ErrMsg
  setReadOnly : InstanceKey → Bool → Instance × Option ErrMsg
  getLastPseudoGTIDEntryInInstance :
    Instance → BinlogCoordinates × String × Option ErrMsg
  searchPseudoGTIDEntryInInstance :
    Instance → String → BinlogCoordinates × Option ErrMsg
  getNextBinlogCoordinatesToMatch :
    Instance → BinlogCoordinates → Instance → BinlogCoordinates →
      BinlogCoordinates × Option ErrMsg

/-- Source lines 87-99: both instances replicate from the same master and
    are distinct. -/
def InstancesAreSiblings (instance0 instance1 : Instance) : Bool :=
  if !instance0.isSlaveFlag then false
  else if !instance1.isSlaveFlag then false
  else if instance0.key == instance1.key then false
  else instance0.masterKey == instance1.masterKey

/-- Cleanup label of MoveUp (lines 176-185): start the instance, start
    the master (under the key held by the current `master` variable),
    then either propagate the pending error or audit; the deferred
    EndMaintenance calls run last, in reverse acquisition order. -/
def moveUpCleanup (env : Env) (instanceKey : InstanceKey) (masterV : Instance)
    (err : Option ErrMsg) (tr : List Event) (acq : List InstanceKey) : OpResult :=
  let instance1 := (env.startSlave instanceKey).1
  let tr1 := tr ++ [Event.startSlave instanceKey, Event.startSlave masterV.key]
  let ends := acq.reverse.map Event.endMaintenance
  match err with
  | some e => { inst := instance1, err := some e, trace := tr1 ++ ends }
  | none =>
      { inst := instance1, err := none,
        trace := tr1 ++ [Event.audit "move-up" instanceKey] ++ ends }

/-- Lines 143-174 of MoveUp: lease both nodes, stop the master, stop the
    instance, advance the instance to the master's (post-stop) self
    coordinates, and re-point it to the master's master at the master's
    (post-stop) executed coordinates.  Any failure jumps to Cleanup with
    the pending error. -/
def moveUpLocked (env : Env) (instanceKey : InstanceKey)
    (master0 : Instance) : OpResult :=
  let tr0 := [Event.beginMaintenance instanceKey]
  match env.beginMaintenance instanceKey with
  | some _ =>
      moveUpCleanup env instanceKey master0
        (some (cannotBeginMaintenanceMsg instanceKey)) tr0 []
  | none =>
    let tr1 := tr0 ++ [Event.beginMaintenance master0.key]
    match env.beginMaintenance master0.key with
    | some _ =>
        moveUpCleanup env instanceKey master0
          (some (cannotBeginMaintenanceMsg master0.key)) tr1 [instanceKey]
    | none =>
      let acq := [instanceKey, master0.key]
      let (master1, e1) := env.stopSlave master0.key
      let tr2 := tr1 ++ [Event.stopSlave master0.key]
      match e1 with
      | some e => moveUpCleanup env instanceKey master1 (some e) tr2 acq
      | none =>
        let (_, e2) := env.stopSlave instanceKey
        let tr3 := tr2 ++ [Event.stopSlave instanceKey]
        match e2 with
        | some e => moveUpCleanup env instanceKey master1 (some e) tr3 acq
        | none =>
          let (_, e3) :=
            env.startSlaveUntilMasterCoordinates instanceKey
              master1.selfBinlogCoordinates
          let tr4 := tr3 ++
            [Event.startSlaveUntil instanceKey master1.selfBinlogCoordinates]
          match e3 with
          | some e => moveUpCleanup env instanceKey master1 (some e) tr4 acq
          | none =>
            let (_, e4) :=
              env.changeMasterTo instanceKey master1.masterKey
                master1.execBinlogCoordinates
            let tr5 := tr4 ++
              [Event.changeMasterTo instanceKey master1.masterKey
                master1.execBinlogCoordinates]
            match e4 with
            | some e => moveUpCleanup env instanceKey master1 (some e) tr5 acq
            | none => moveUpCleanup env instanceKey master1 none tr5 acq

/-- Source lines 116-186: MoveUp.  Probe the instance, gate on it being a
    slave, on `CanMove` of its cached copy, on its master being a slave
    itself, and on `CanReplicateFrom`; then drive the locked sequence. -/
def MoveUp (env : Env) (instanceKey : InstanceKey) : OpResult :=
  match env.readTopologyInstance instanceKey with
  | (instance0, some e) => { inst := instance0, err := some e, trace := [] }
  | (instance0, none) =>
    if !instance0.isSlaveFlag then
      { inst := instance0, err := some (notASlaveMsg instanceKey), trace := [] }
    else
      match env.canMove (env.readInstance instance0.key).1 with
      | some merr => { inst := instance0, err := some merr, trace := [] }
      | none =>
        match env.readTopologyInstance instance0.masterKey with
        | (_, some e) =>
            { inst := instance0, err := some (cannotGetMasterMsg e), trace := [] }
        | (master0, none) =>
          if !master0.isSlaveFlag then
            { inst := instance0, err := some (masterNotSlaveMsg master0.key),
              trace := [] }
          else
            match env.canReplicateFrom instance0 master0 with
            | some e => { inst := instance0, err := some e, trace := [] }
            | none => moveUpLocked env instanceKey master0

/-- Cleanup label of MoveBelow (lines 259-268): start the instance and
    the sibling under the keys given as parameters, then propagate the
    pending error or audit; deferred EndMaintenance calls run last. -/
def moveBelowCleanup (env : Env) (instanceKey siblingKey : InstanceKey)
    (err : Option ErrMsg) (tr : List Event) (acq : List InstanceKey) : OpResult :=
  let instance1 := (env.startSlave instanceKey).1
  let tr1 := tr ++ [Event.startSlave instanceKey, Event.startSlave siblingKey]
  let ends := acq.reverse.map Event.endMaintenance
  match err with
  | some e => { inst := instance1, err := some e, trace := tr1 ++ ends }
  | none =>
      { inst := instance1, err := none,
        trace := tr1 ++ [Event.audit "move-below" instanceKey] ++ ends }

/-- Lines 254-257 of MoveBelow: the ChangeMasterTo call, with the key and
    self coordinates of the current `sibling` variable. -/
def moveBelowRepoint (env : Env) (instanceKey siblingKey : InstanceKey)
    (siblingV : Instance) (tr : List Event) (acq : List InstanceKey) : OpResult :=
  let (_, e) :=
    env.changeMasterTo instanceKey siblingV.key siblingV.selfBinlogCoordinates
  let tr1 := tr ++
    [Event.changeMasterTo instanceKey siblingV.key siblingV.selfBinlogCoordinates]
  match e with
  | some e0 => moveBelowCleanup env instanceKey siblingKey (some e0) tr1 acq
  | none => moveBelowCleanup env instanceKey siblingKey none tr1 acq

/-- Lines 231-257 of MoveBelow: stop both nodes, advance whichever has
    the strictly smaller executed coordinates to the other's executed
    coordinates (skip if neither is smaller), then re-point the instance
    below the sibling at the sibling's self coordinates, taken from the
    current `sibling` variable. -/
def moveBelowDrive (env : Env) (instanceKey siblingKey : InstanceKey)
    (tr : List Event) (acq : List InstanceKey) : OpResult :=
  let (instance1, e1) := env.stopSlave instanceKey
  let tr1 := tr ++ [Event.stopSlave instanceKey]
  match e1 with
  | some e => moveBelowCleanup env instanceKey siblingKey (some e) tr1 acq
  | none =>
    let (sibling1, e2) := env.stopSlave siblingKey
    let tr2 := tr1 ++ [Event.stopSlave siblingKey]
    match e2 with
    | some e => moveBelowCleanup env instanceKey siblingKey (some e) tr2 acq
    | none =>
      if SmallerThan instance1.execBinlogCoordinates sibling1.execBinlogCoordinates then
        let (_, e3) :=
          env.startSlaveUntilMasterCoordinates instanceKey
            sibling1.execBinlogCoordinates
        let tr3 := tr2 ++
          [Event.startSlaveUntil instanceKey sibling1.execBinlogCoordinates]
        match e3 with
        | some e => moveBelowCleanup env instanceKey siblingKey (some e) tr3 acq
        | none => moveBelowRepoint env instanceKey siblingKey sibling1 tr3 acq
      else if SmallerThan sibling1.execBinlogCoordinates instance1.execBinlogCoordinates then
        let (sibling2, e3) :=
          env.startSlaveUntilMasterCoordinates siblingKey
            instance1.execBinlogCoordinates
        let tr3 := tr2 ++
          [Event.startSlaveUntil siblingKey instance1.execBinlogCoordinates]
        match e3 with
        | some e => moveBelowCleanup env instanceKey siblingKey (some e) tr3 acq
        | none => moveBelowRepoint env instanceKey siblingKey sibling2 tr3 acq
      else moveBelowRepoint env instanceKey siblingKey sibling1 tr2 acq

/-- Source lines 191-269: MoveBelow.  Probe both nodes, gate on `CanMove`
    of both cached copies, on the two being siblings, and on
    `CanReplicateFrom`; then lease both (instance first) and drive. -/
def MoveBelow (env : Env) (instanceKey siblingKey : InstanceKey) : OpResult :=
  match env.readTopologyInstance instanceKey with
  | (instance0, some e) => { inst := instance0, err := some e, trace := [] }
  | (instance0, none) =>
    match env.readTopologyInstance siblingKey with
    | (_, some e) => { inst := instance0, err := some e, trace := [] }
    | (sibling0, none) =>
      match env.canMove (env.readInstance instance0.key).1 with
      | some merr => { inst := instance0, err := some merr, trace := [] }
      | none =>
        match env.canMove (env.readInstance sibling0.key).1 with
        | some merr => { inst := instance0, err := some merr, trace := [] }
        | none =>
          if !(InstancesAreSiblings instance0 sibling0) then
            { inst := instance0,
              err := some (notSiblingsMsg instanceKey siblingKey), trace := [] }
          else
            match env.canReplicateFrom instance0 sibling0 with
            | some e => { inst := instance0, err := some e, trace := [] }
            | none =>
              let tr0 := [Event.beginMaintenance instanceKey]
              match env.beginMaintenance instanceKey with
              | some _ =>
                  moveBelowCleanup env instanceKey siblingKey
                    (some (cannotBeginMaintenanceMsg instanceKey)) tr0 []
              | none =>
                let tr1 := tr0 ++ [Event.beginMaintenance siblingKey]
                match env.beginMaintenance siblingKey with
                | some _ =>
                    moveBelowCleanup env instanceKey siblingKey
                      (some (cannotBeginMaintenanceMsg siblingKey)) tr1
                      [instanceKey]
                | none =>
                    moveBelowDrive env instanceKey siblingKey tr1
                      [instanceKey, siblingKey]

/-- Cleanup label of MakeCoMaster (lines 323-331): start the master under
    the key of the current `master` variable, then propagate the pending
    error or audit; deferred EndMaintenance calls run last. -/
def makeCoMasterCleanup (env : Env) (instanceKey : InstanceKey)
    (instance0 masterV : Instance) (err : Option ErrMsg) (tr : List Event)
    (acq : List InstanceKey) : OpResult :=
  let tr1 := tr ++ [Event.startSlave masterV.key]
  let ends := acq.reverse.map Event.endMaintenance
  match err with
  | some e => { inst := instance0, err := some e, trace := tr1 ++ ends }
  | none =>
      { inst := instance0, err := none,
        trace := tr1 ++ [Event.audit "make-co-master" instanceKey] ++ ends }

/-- Source lines 273-332: MakeCoMaster.  Probe the instance and its
    master, gate on `CanMoveAsCoMaster` of the master's cached copy and
    `CanMove` of the instance's cached copy, refuse if the instance is
    already co-master of its master or the master has a known master,
    gate on the master being able to replicate from the instance; then
    lease both and point the master at the instance's self coordinates. -/
def MakeCoMaster (env : Env) (instanceKey : InstanceKey) : OpResult :=
  match env.readTopologyInstance instanceKey with
  | (instance0, some e) => { inst := instance0, err := some e, trace := [] }
  | (instance0, none) =>
    match env.readTopologyInstance instance0.masterKey with
    | (_, some e) => { inst := instance0, err := some e, trace := [] }
    | (master0, none) =>
      match env.canMoveAsCoMaster (env.readInstance master0.key).1 with
      | some merr => { inst := instance0, err := some merr, trace := [] }
      | none =>
        match env.canMove (env.readInstance instanceKey).1 with
        | some merr => { inst := instance0, err := some merr, trace := [] }
        | none =>
          if instanceKey == master0.masterKey then
            { inst := instance0,
              err := some (alreadyCoMasterMsg instanceKey master0.key),
              trace := [] }
          else if (env.readInstance master0.masterKey).2.1 then
            { inst := instance0,
              err := some (knownMasterMsg master0.key master0.masterKey),
              trace := [] }
          else
            match env.canReplicateFrom master0 instance0 with
            | some e => { inst := instance0, err := some e, trace := [] }
            | none =>
              let tr0 := [Event.beginMaintenance instanceKey]
              match env.beginMaintenance instanceKey with
              | some _ =>
                  makeCoMasterCleanup env instanceKey instance0 master0
                    (some (cannotBeginMaintenanceMsg instanceKey)) tr0 []
              | none =>
                let tr1 := tr0 ++ [Event.beginMaintenance master0.key]
                match env.beginMaintenance master0.key with
                | some _ =>
                    makeCoMasterCleanup env instanceKey instance0 master0
                      (some (cannotBeginMaintenanceMsg master0.key)) tr1
                      [instanceKey]
                | none =>
                  let acq := [instanceKey, master0.key]
                  let (master1, e1) :=
                    env.changeMasterTo master0.key instanceKey
                      instance0.selfBinlogCoordinates
                  let tr2 := tr1 ++
                    [Event.changeMasterTo master0.key instanceKey
                      instance0.selfBinlogCoordinates]
                  match e1 with
                  | some e =>
                      makeCoMasterCleanup env instanceKey instance0 master1
                        (some e) tr2 acq
                  | none =>
                      makeCoMasterCleanup env instanceKey instance0 master1
                        none tr2 acq

/-- Cleanup label of ResetSlaveOperation (lines 362-372): start the
    instance, then propagate the pending error or audit; the deferred
    EndMaintenance call runs last when the lease was acquired. -/
def resetSlaveCleanup (env : Env) (instanceKey : InstanceKey)
    (err : Option ErrMsg) (tr : List Event) (acq : List InstanceKey) : OpResult :=
  let instance1 := (env.startSlave instanceKey).1
  let tr1 := tr ++ [Event.startSlave instanceKey]
  let ends := acq.reverse.map Event.endMaintenance
  match err with
  | some e => { inst := instance1, err := some e, trace := tr1 ++ ends }
  | none =>
      { inst := instance1, err := none,
        trace := tr1 ++ [Event.audit "reset slave" instanceKey] ++ ends }

/-- Lines 357-360 of ResetSlaveOperation: the ResetSlave call. -/
def resetSlaveDrive (env : Env) (instanceKey : InstanceKey)
    (tr : List Event) (acq : List InstanceKey) : OpResult :=
  let (_, e) := env.resetSlave instanceKey
  let tr1 := tr ++ [Event.resetSlave instanceKey]
  match e with
  | some e0 => resetSlaveCleanup env instanceKey (some e0) tr1 acq
  | none => resetSlaveCleanup env instanceKey none tr1 acq

/-- Source lines 335-373: ResetSlaveOperation.  Probe the instance, lease
    it, stop it when it is a slave, reset it, and clean up. -/
def ResetSlaveOperation (env : Env) (instanceKey : InstanceKey) : OpResult :=
  match env.readTopologyInstance instanceKey with
  | (instance0, some e) => { inst := instance0, err := some e, trace := [] }
  | (instance0, none) =>
    let tr0 := [Event.beginMaintenance instanceKey]
    match env.beginMaintenance instanceKey with
    | some _ =>
        resetSlaveCleanup env instanceKey
          (some (cannotBeginMaintenanceMsg instanceKey)) tr0 []
    | none =>
      let acq := [instanceKey]
      if instance0.isSlaveFlag then
        let (_, e1) := env.stopSlave instanceKey
        let tr1 := tr0 ++ [Event.stopSlave instanceKey]
        match e1 with
        | some e => resetSlaveCleanup env instanceKey (some e) tr1 acq
        | none => resetSlaveDrive env instanceKey tr1 acq
      else resetSlaveDrive env instanceKey tr0 acq

/-- Cleanup label of MatchBelow (lines 465-473): start the instance, then
    propagate the pending error or audit; deferred EndMaintenance calls
    run last for whichever leases were acquired. -/
def matchBelowCleanup (env : Env) (instanceKey : InstanceKey)
    (err : Option ErrMsg) (tr : List Event) (acq : List InstanceKey) : OpResult :=
  let instance1 := (env.startSlave instanceKey).1
  let tr1 := tr ++ [Event.startSlave instanceKey]
  let ends := acq.reverse.map Event.endMaintenance
  match err with
  | some e => { inst := instance1, err := some e, trace := tr1 ++ ends }
  | none =>
      { inst := instance1, err := none,
        trace := tr1 ++ [Event.audit "match-below" instanceKey] ++ ends }

/-- Lines 425-463 of MatchBelow: stop the instance, locate its last
    pseudo-GTID entry, search the identical entry text in the other
    instance, compute the next coordinates to match, and re-point the
    instance below the other instance at those coordinates.  Any failure
    jumps to Cleanup with the pending error. -/
def matchBelowDrive (env : Env) (instanceKey otherKey : InstanceKey)
    (otherInstance0 : Instance) (tr : List Event) (acq : List InstanceKey) :
    OpResult :=
  let (instance1, e1) := env.stopSlave instanceKey
  let tr1 := tr ++ [Event.stopSlave instanceKey]
  match e1 with
  | some e => matchBelowCleanup env instanceKey (some e) tr1 acq
  | none =>
    match env.getLastPseudoGTIDEntryInInstance instance1 with
    | (_, _, some e) => matchBelowCleanup env instanceKey (some e) tr1 acq
    | (iCoord, iText, none) =>
      match env.searchPseudoGTIDEntryInInstance otherInstance0 iText with
      | (_, some e) => matchBelowCleanup env instanceKey (some e) tr1 acq
      | (oCoord, none) =>
        match env.getNextBinlogCoordinatesToMatch instance1 iCoord
            otherInstance0 oCoord with
        | (_, some e) => matchBelowCleanup env instanceKey (some e) tr1 acq
        | (nextCoord, none) =>
          let (_, e2) := env.changeMasterTo instanceKey otherKey nextCoord
          let tr2 := tr1 ++ [Event.changeMasterTo instanceKey otherKey nextCoord]
          match e2 with
          | some e => matchBelowCleanup env instanceKey (some e) tr2 acq
          | none => matchBelowCleanup env instanceKey none tr2 acq

/-- Lines 416-423 of MatchBelow: the optional lease on the other node. -/
def matchBelowLeaseOther (env : Env) (instanceKey otherKey : InstanceKey)
    (requireOtherMaintenance : Bool) (otherInstance0 : Instance)
    (tr : List Event) (acq : List InstanceKey) : OpResult :=
  if requireOtherMaintenance then
    let tr1 := tr ++ [Event.beginMaintenance otherKey]
    match env.beginMaintenance otherKey with
    | some _ =>
        matchBelowCleanup env instanceKey
          (some (cannotBeginMaintenanceMsg otherKey)) tr1 acq
    | none =>
        matchBelowDrive env instanceKey otherKey otherInstance0 tr1
          (acq ++ [otherKey])
  else matchBelowDrive env instanceKey otherKey otherInstance0 tr acq

/-- Source lines 380-474: MatchBelow.  Probe both nodes, refuse matching
    a node below itself, gate on `CanMoveViaMatch` of the instance's
    cached copy and on `CanReplicateFrom`; lease per the two boolean
    flags; then drive the pseudo-GTID match. -/
def MatchBelow (env : Env) (instanceKey otherKey : InstanceKey)
    (requireInstanceMaintenance requireOtherMaintenance : Bool) : OpResult :=
  match env.readTopologyInstance instanceKey with
  | (instance0, some e) => { inst := instance0, err := some e, trace := [] }
  | (instance0, none) =>
    if instanceKey == otherKey then
      { inst := instance0, err := some (matchBelowSelfMsg instanceKey),
        trace := [] }
    else
      match env.readTopologyInstance otherKey with
      | (_, some e) => { inst := instance0, err := some e, trace := [] }
      | (otherInstance0, none) =>
        match env.canMoveViaMatch (env.readInstance instance0.key).1 with
        | some merr => { inst := instance0, err := some merr, trace := [] }
        | none =>
          match env.canReplicateFrom instance0 otherInstance0 with
          | some e => { inst := instance0, err := some e, trace := [] }
          | none =>
            if requireInstanceMaintenance then
              let tr0 := [Event.beginMaintenance instanceKey]
              match env.beginMaintenance instanceKey with
              | some _ =>
                  matchBelowCleanup env instanceKey
                    (some (cannotBeginMaintenanceMsg instanceKey)) tr0 []
              | none =>
                  matchBelowLeaseOther env instanceKey otherKey
                    requireOtherMaintenance otherInstance0 tr0 [instanceKey]
            else
              matchBelowLeaseOther env instanceKey otherKey
                requireOtherMaintenance otherInstance0 [] []

/-- Source lines 479-500: enslaveSiblings fans out one MatchBelow per
    sibling whose SQL thread is up to date and which is not the instance
    itself, and always returns a nil error (per-sibling errors are only
    logged).  The goroutine fan-out is sequentialized here in list
    order; the claims proved below do not depend on the interleaving. -/
def enslaveSiblingsTrace (env : Env) (instanceKey : InstanceKey) :
    List Instance → List Event
  | [] => []
  | sibling :: rest =>
    (if sibling.sqlThreadUpToDateFlag && !(sibling.key == instanceKey) then
      (MatchBelow env sibling.key instanceKey true false).trace
    else []) ++ enslaveSiblingsTrace env instanceKey rest

/-- Return value and trace of enslaveSiblings: the error is always nil. -/
def enslaveSiblings (env : Env) (instanceKey : InstanceKey)
    (siblings : List Instance) : Option ErrMsg × List Event :=
  (none, enslaveSiblingsTrace env instanceKey siblings)

/-- Cleanup label of MakeMaster (lines 545-552): no restart of anything;
    propagate the pending error or audit; the deferred EndMaintenance
    call runs last when the lease was acquired. -/
def makeMasterFinish (env : Env) (instanceKey : InstanceKey)
    (instance0 : Instance) (err : Option ErrMsg) (tr : List Event)
    (acq : List InstanceKey) : OpResult :=
  let ends := acq.reverse.map Event.endMaintenance
  match err with
  | some e => { inst := instance0, err := some e, trace := tr ++ ends }
  | none =>
      { inst := instance0, err := none,
        trace := tr ++ [Event.audit "make-master" instanceKey] ++ ends }

/-- Lines 518-552 of MakeMaster, after the master probe: gate on the SQL
    thread being up to date, read the siblings, refuse when some sibling
    is strictly more advanced, lease the instance, enslave the siblings
    (which never fails), issue SetReadOnly discarding its result, and
    finish. -/
def makeMasterChecks (env : Env) (instanceKey : InstanceKey)
    (instance0 masterInstance0 : Instance) : OpResult :=
  if !instance0.sqlThreadUpToDateFlag then
    { inst := instance0, err := some (makeMasterSqlThreadMsg instanceKey),
      trace := [] }
  else
    match env.readSlaveInstances masterInstance0.key with
    | (_, some e) => { inst := instance0, err := some e, trace := [] }
    | (siblings, none) =>
      match siblings.find?
          (fun s => SmallerThan instance0.execBinlogCoordinates
            s.execBinlogCoordinates) with
      | some s =>
          { inst := instance0,
            err := some (moreAdvancedSiblingMsg instanceKey s.key), trace := [] }
      | none =>
        match env.beginMaintenance instanceKey with
        | some _ =>
            makeMasterFinish env instanceKey instance0
              (some (cannotBeginMaintenanceMsg instanceKey))
              [Event.beginMaintenance instanceKey] []
        | none =>
          let tr := [Event.beginMaintenance instanceKey] ++
            enslaveSiblingsTrace env instanceKey siblings ++
            [Event.setReadOnly instanceKey false]
          makeMasterFinish env instanceKey instance0 none tr [instanceKey]

/-- Source lines 504-553: MakeMaster.  Probe the instance; probe its
    master, and only when that probe FAILS check the (stale) master data:
    refuse if it seems to be replicating or its last check is valid; a
    successful probe skips both checks and proceeds. -/
def MakeMaster (env : Env) (instanceKey : InstanceKey) : OpResult :=
  match env.readTopologyInstance instanceKey with
  | (instance0, some e) => { inst := instance0, err := some e, trace := [] }
  | (instance0, none) =>
    match env.readTopologyInstance instance0.masterKey with
    | (masterInstance0, some _) =>
      if masterInstance0.isSlaveFlag then
        { inst := instance0,
          err := some (makeMasterReplicatingMsg masterInstance0.key),
          trace := [] }
      else if masterInstance0.isLastCheckValid then
        { inst := instance0,
          err := some (makeMasterAccessibleMsg masterInstance0.key),
          trace := [] }
      else makeMasterChecks env instanceKey instance0 masterInstance0
    | (masterInstance0, none) =>
        makeMasterChecks env instanceKey instance0 masterInstance0

/-- Cleanup label of MakeLocalMaster (lines 603-610): no restart of
    anything — in particular no StartSlave on the instance the operator
    stopped with StopSlaveNicely; propagate the pending error or audit;
    the deferred EndMaintenance call runs last. -/
def makeLocalMasterFinish (env : Env) (instanceKey : InstanceKey)
    (instanceV : Instance) (err : Option ErrMsg) (tr : List Event)
    (acq : List InstanceKey) : OpResult :=
  let ends := acq.reverse.map Event.endMaintenance
  match err with
  | some e => { inst := instanceV, err := some e, trace := tr ++ ends }
  | none =>
      { inst := instanceV, err := none,
        trace := tr ++ [Event.audit "make-local-master" instanceKey] ++ ends }

/-- Lines 588-601 of MakeLocalMaster: StopSlaveNicely the instance, run
    MatchBelow onto the grandparent with both lease flags false, then
    enslave the siblings (which never fails). -/
def makeLocalMasterDrive (env : Env) (instanceKey : InstanceKey)
    (grandparentInstance0 : Instance) (siblings : List Instance) : OpResult :=
  let tr0 := [Event.beginMaintenance instanceKey]
  let acq := [instanceKey]
  let (instance1, e1) := env.stopSlaveNicely instanceKey
  let tr1 := tr0 ++ [Event.stopSlaveNicely instanceKey]
  match e1 with
  | some e => makeLocalMasterFinish env instanceKey instance1 (some e) tr1 acq
  | none =>
    let mres := MatchBelow env instanceKey grandparentInstance0.key false false
    let tr2 := tr1 ++ mres.trace
    match mres.err with
    | some e => makeLocalMasterFinish env instanceKey instance1 (some e) tr2 acq
    | none =>
        let tr3 := tr2 ++ enslaveSiblingsTrace env instanceKey siblings
        makeLocalMasterFinish env instanceKey instance1 none tr3 acq

/-- Source lines 558-611: MakeLocalMaster.  Probe the instance, read the
    cached master (returning the read's error — possibly nil — when it is
    not found), probe the grandparent, read the siblings, refuse when
    some sibling is strictly more advanced, lease the instance, then
    drive. -/
def MakeLocalMaster (env : Env) (instanceKey : InstanceKey) : OpResult :=
  match env.readTopologyInstance instanceKey with
  | (instance0, some e) => { inst := instance0, err := some e, trace := [] }
  | (instance0, none) =>
    match env.readInstance instance0.masterKey with
    | (_, _, some e) => { inst := instance0, err := some e, trace := [] }
    | (masterInstance0, found, none) =>
      if !found then { inst := instance0, err := none, trace := [] }
      else
        match env.readTopologyInstance masterInstance0.masterKey with
        | (_, some e) => { inst := instance0, err := some e, trace := [] }
        | (grandparentInstance0, none) =>
          match env.readSlaveInstances masterInstance0.key with
          | (_, some e) => { inst := instance0, err := some e, trace := [] }
          | (siblings, none) =>
            match siblings.find?
                (fun s => SmallerThan instance0.execBinlogCoordinates
                  s.execBinlogCoordinates) with
            | some s =>
                { inst := instance0,
                  err := some (moreAdvancedSiblingMsg instanceKey s.key),
                  trace := [] }
            | none =>
              match env.beginMaintenance instanceKey with
              | some _ =>
                  makeLocalMasterFinish env instanceKey instance0
                    (some (cannotBeginMaintenanceMsg instanceKey))
                    [Event.beginMaintenance instanceKey] []
              | none =>
                  makeLocalMasterDrive env instanceKey grandparentInstance0
                    siblings

/-- Go map built at lines 54-58 of AsciiTopology: later insertions
    overwrite earlier ones, so a lookup finds the LAST instance in list
    order carrying the key. -/
def instancesMapFind (instances : List Instance) (j : InstanceKey) :
    Option Instance :=
  instances.reverse.find? (fun i => i.key == j)

/-- Lines 60-73 of AsciiTopology: the `masterInstance` variable after the
    investigation loop.  Each instance whose MasterKey is absent from the
    instance map overwrites it; it stays unassigned (`none`) when every
    instance's master is present in the map (or the list is empty). -/
def rootFold (instances : List Instance) : Option Instance :=
  instances.foldl
    (fun acc i =>
      if (instancesMapFind instances i.masterKey).isSome then acc else some i)
    none

/-- Lines 63-70 of AsciiTopology: the replicas recorded under a map
    entry.  The Go map is keyed by pointer; pointer identity is modelled
    by value equality against the canonical map entry.  The claims proved
    below never consult this map (the failing case panics first). -/
def replicationChildren (instances : List Instance) (m : Instance) :
    List Instance :=
  instances.filter (fun i => instancesMapFind instances i.masterKey == some m)

/-- Outcome of the recursive tree renderer: produced lines, a nil
    dereference (Go panic), or fuel exhaustion, which stands for the
    divergence Go would exhibit on a cyclic replication map. -/
inductive EntryResult where
  | lines (ls : List String)
  | nilDeref
  | outOfFuel
deriving DecidableEq

/-- Source lines 28-45: getAsciiTopologyEntry.  A `none` instance models
    the nil `*Instance` pointer: the first field access
    (`instance.Key.DisplayString()`, or `instance.SlaveRunning()` at
    positive depth) panics before anything else happens. -/
def getAsciiTopologyEntry (fuel depth : Nat) (oinst : Option Instance)
    (instances : List Instance) : EntryResult :=
  match oinst with
  | none => EntryResult.nilDeref
  | some inst =>
    match fuel with
    | 0 => EntryResult.outOfFuel
    | Nat.succ f =>
      let pfx :=
        if depth > 0 then
          String.mk (List.replicate ((depth - 1) * 2) ' ') ++
            (if inst.slaveRunningFlag then "+ " else "- ")
        else ""
      let entry := pfx ++ displayKey inst.key
      (replicationChildren instances inst).foldl
        (fun acc child =>
          match acc with
          | EntryResult.lines ls =>
            match getAsciiTopologyEntry f (depth + 1) (some child) instances with
            | EntryResult.lines ls2 => EntryResult.lines (ls ++ ls2)
            | bad => bad
          | bad => bad)
        (EntryResult.lines [entry])
termination_by fuel

/-- Overall outcome of AsciiTopology: a rendered string, a propagated
    read error, or one of the two non-returning behaviors of the
    renderer. -/
inductive AsciiOutcome where
  | ok (s : String)
  | err (e : ErrMsg)
  | nilDeref
  | outOfFuel
deriving DecidableEq

/-- Source lines 48-77: AsciiTopology.  Read the cluster instances,
    build the maps, pick the root, and render.  Note that the source has
    no error path for a missing root: `masterInstance` is passed to the
    renderer unconditionally. -/
def AsciiTopology (env : Env) (clusterName : String) : AsciiOutcome :=
  match env.readClusterInstances clusterName with
  | (_, some e) => AsciiOutcome.err e
  | (instances, none) =>
    match getAsciiTopologyEntry (instances.length + 1) 0 (rootFold instances)
        instances with
    | EntryResult.lines ls => AsciiOutcome.ok (String.intercalate "\n" ls)
    | EntryResult.nilDeref => AsciiOutcome.nilDeref
    | EntryResult.outOfFuel => AsciiOutcome.outOfFuel

/-- Modelled from the spec: the deterministic NodeKey ordering used in
    the lease-ordering claim (host first, then port). -/
def keyLt (a b : InstanceKey) : Bool :=
  strLtAux a.host.data b.host.data ||
    (a.host == b.host && decide (a.port < b.port))

/-- Keys of the lease acquisitions in a trace, in order. -/
def beginsOf (tr : List Event) : List InstanceKey :=
  tr.filterMap (fun e =>
    match e with
    | Event.beginMaintenance k => some k
    | _ => none)

/-- Keys of Stop and StopNicely calls in a trace, in order. -/
def stoppedKeys (tr : List Event) : List InstanceKey :=
  tr.filterMap (fun e =>
    match e with
    | Event.stopSlave k => some k
    | Event.stopSlaveNicely k => some k
    | _ => none)

/-- Keys of Start calls in a trace, in order. -/
def startedKeys (tr : List Event) : List InstanceKey :=
  tr.filterMap (fun e =>
    match e with
    | Event.startSlave k => some k
    | _ => none)

/-- Driver mutations other than the cleanup Start calls: Stop,
    StopNicely, StartUntil, ChangeUpstream, Reset and SetWritable. -/
def isHardMutation : Event → Bool
  | Event.stopSlave _ => true
  | Event.stopSlaveNicely _ => true
  | Event.startSlaveUntil _ _ => true
  | Event.changeMasterTo _ _ _ => true
  | Event.resetSlave _ => true
  | Event.setReadOnly _ _ => true
  | _ => false

/-- Concrete keys for witnesses and counterexamples. -/
def kT : InstanceKey := ⟨"t", 1⟩

/-- Upstream of kT in the straight-line test topology. -/
def kU : InstanceKey := ⟨"u", 1⟩

/-- Shared master of the test siblings and grandparent of kT. -/
def kM : InstanceKey := ⟨"m", 1⟩

/-- First test sibling (smaller key). -/
def kA : InstanceKey := ⟨"a", 1⟩

/-- Second test sibling (larger key). -/
def kB : InstanceKey := ⟨"b", 1⟩

/-- Key outside the test topology. -/
def kZ : InstanceKey := ⟨"z", 1⟩

/-- Upstream relation of the straight-line test topology:
    kM is master of kU, kA and kB; kU is master of kT. -/
def masterOf (j : InstanceKey) : InstanceKey :=
  if j == kT then kU
  else if j == kU then kM
  else if j == kA then kM
  else if j == kB then kM
  else kZ

/-- Self coordinates used by the test topology. -/
def coordSelf : BinlogCoordinates := ⟨"bin.2", 20⟩

/-- Executed coordinates used by the test topology. -/
def coordExec : BinlogCoordinates := ⟨"bin.1", 10⟩

/-- Node snapshot of the straight-line test topology at a key. -/
def topoOf (j : InstanceKey) : Instance :=
  { key := j, masterKey := masterOf j,
    selfBinlogCoordinates := coordSelf,
    execBinlogCoordinates := coordExec,
    isSlaveFlag := true, slaveRunningFlag := true,
    sqlThreadUpToDateFlag := true, isLastCheckValid := true }

/-- Environment in which every collaborator call succeeds over the
    straight-line test topology. -/
def envOK : Env :=
  { readTopologyInstance := fun j => (topoOf j, none),
    readInstance := fun j => (topoOf j, true, none),
    readSlaveInstances := fun _ => ([], none),
    readClusterInstances := fun _ => ([], none),
    canMove := fun _ => none,
    canMoveAsCoMaster := fun _ => none,
    canMoveViaMatch := fun _ => none,
    canReplicateFrom := fun _ _ => none,
    beginMaintenance := fun _ => none,
    stopSlave := fun j => (topoOf j, none),
    stopSlaveNicely := fun j => (topoOf j, none),
    startSlave := fun j => (topoOf j, none),
    startSlaveUntilMasterCoordinates := fun j _ => (topoOf j, none),
    changeMasterTo := fun j _ _ => (topoOf j, none),
    resetSlave := fun j => (topoOf j, none),
    setReadOnly := fun j _ => (topoOf j, none),
    getLastPseudoGTIDEntryInInstance := fun _ => (coordExec, "pgtid-marker", none),
    searchPseudoGTIDEntryInInstance := fun _ _ => (coordExec, none),
    getNextBinlogCoordinatesToMatch := fun _ _ _ _ => (coordSelf, none) }

/-- Environment in which every lease acquisition is refused. -/
def envBeginFail : Env :=
  { envOK with beginMaintenance := fun _ => some "maintenance refused" }

/-- Environment in which the pseudo-GTID eligibility gate refuses. -/
def envNoMatch : Env :=
  { envOK with canMoveViaMatch := fun _ => some "pseudo-gtid match refused" }

/-- Environment in which no pseudo-GTID marker can be located. -/
def envNoMarker : Env :=
  { envOK with
    getLastPseudoGTIDEntryInInstance :=
      fun _ => (coordExec, "", some "no pseudo gtid entry") }

/-- Environment in which probing kU fails while its cached snapshot still
    claims it is a replica with a valid last check. -/
def envProbeFailU : Env :=
  { envOK with
    readTopologyInstance := fun j =>
      if j == kU then (topoOf kU, some "probe failed") else (topoOf j, none) }

/-- Environment in which SetReadOnly fails. -/
def envReadOnlyFail : Env :=
  { envOK with setReadOnly := fun j _ => (topoOf j, some "cannot toggle read-only") }

/-- Upstream relation of the co-master test topology: kT and kU are each
    other's master. -/
def masterOf2 (j : InstanceKey) : InstanceKey :=
  if j == kT then kU else if j == kU then kT else kZ

/-- Node snapshot of the co-master test topology at a key. -/
def topo2Of (j : InstanceKey) : Instance :=
  { key := j, masterKey := masterOf2 j,
    selfBinlogCoordinates := coordSelf,
    execBinlogCoordinates := coordExec,
    isSlaveFlag := true, slaveRunningFlag := true,
    sqlThreadUpToDateFlag := true, isLastCheckValid := true }

/-- Environment over the co-master test topology. -/
def envCoM : Env :=
  { envOK with
    readTopologyInstance := fun j => (topo2Of j, none),
    readInstance := fun j => (topo2Of j, true, none) }

/-- Environment whose cluster read returns the co-master 2-cycle. -/
def envTwoCycle : Env :=
  { envOK with
    readClusterInstances := fun _ => ([topo2Of kT, topo2Of kU], none) }

/-- Whether a trace contains any ChangeUpstream call. -/
def hasChangeMaster (tr : List Event) : Bool :=
  tr.any (fun e =>
    match e with
    | Event.changeMasterTo _ _ _ => true
    | _ => false)

/-- Whether a trace contains any driver mutation other than Start. -/
def hasHardMutation (tr : List Event) : Bool :=
  tr.any isHardMutation

/-- C1 counterexample: MakeLocalMaster on the straight-line topology,
    where the inner MatchBelow is refused by its CanMoveViaMatch gate,
    stops the target with StopSlaveNicely and returns without a single
    Start having been attempted on any node. -/
theorem makeLocalMaster_stops_without_start :
    stoppedKeys (MakeLocalMaster envNoMatch kT).trace = [kT] ∧
    startedKeys (MakeLocalMaster envNoMatch kT).trace = [] ∧
    (MakeLocalMaster envNoMatch kT).err = some "pseudo-gtid match refused" := by
  decide

/-- C3 counterexample: when the very first lease acquisition of MoveUp
    fails, the operator does return an error naming the key, but its
    cleanup still issues Start against both the target and its upstream,
    so the claimed `no driver mutation at all: no Stop, Start, ...` is
    false. -/
theorem moveUp_lease_failure_starts :
    (MoveUp envBeginFail kT).err = some (cannotBeginMaintenanceMsg kT) ∧
    startedKeys (MoveUp envBeginFail kT).trace = [kT, kU] := by
  decide

/-- C6 counterexample: the probe of the target's upstream succeeds and
    the upstream reports itself a replica with a valid last check — by
    the claim MakeMaster must return a precondition error with no
    mutation — yet MakeMaster proceeds to mutate (SetReadOnly is issued)
    and returns nil. -/
theorem makeMaster_probe_success_proceeds :
    (envOK.readTopologyInstance ((envOK.readTopologyInstance kT).1.masterKey)).2
      = none ∧
    (envOK.readTopologyInstance
      ((envOK.readTopologyInstance kT).1.masterKey)).1.isSlaveFlag = true ∧
    (envOK.readTopologyInstance
      ((envOK.readTopologyInstance kT).1.masterKey)).1.isLastCheckValid = true ∧
    (MakeMaster envOK kT).err = none ∧
    Event.setReadOnly kT false ∈ (MakeMaster envOK kT).trace := by
  decide

/-- C8 counterexample: MoveBelow with target kB and sibling kA acquires
    the lease on kB first although kA is the smaller NodeKey, so lease
    acquisition does not follow the NodeKey ordering of the involved
    keys. -/
theorem moveBelow_lease_order_not_by_key :
    keyLt kA kB = true ∧
    beginsOf (MoveBelow envOK kB kA).trace = [kB, kA] := by
  decide

/-- C7: whenever the target is already co-master of its upstream (the
    target's key equals the upstream's upstream key) or the upstream
    already has a known upstream (the cached read of its master key
    reports found), MakeCoMaster returns an error and issues no remote
    call at all — its trace is empty. -/
theorem makeCoMaster_rejects_existing_comaster (env : Env)
    (instanceKey : InstanceKey) (instance0 master0 : Instance)
    (h0 : env.readTopologyInstance instanceKey = (instance0, none))
    (h1 : env.readTopologyInstance instance0.masterKey = (master0, none))
    (hXY : instanceKey = master0.masterKey ∨
      (env.readInstance master0.masterKey).2.1 = true) :
    (MakeCoMaster env instanceKey).err ≠ none ∧
    (MakeCoMaster env instanceKey).trace = [] := by
  unfold MakeCoMaster
  simp only [h0, h1]
  rcases hc1 : env.canMoveAsCoMaster (env.readInstance master0.key).1 with _ | merr
  · simp only [hc1]
    rcases hc2 : env.canMove (env.readInstance instanceKey).1 with _ | merr2
    · simp only [hc2]
      by_cases hx : instanceKey == master0.masterKey
      · simp [hx]
      · rcases hXY with hX | hY
        · exact absurd (beq_iff_eq.mpr hX) hx
        · simp [hx, hY]
    · simp [hc2]
  · simp [hc1]

/-- C7 witness: on the concrete co-master pair kT is already co-master of
    kU, and MakeCoMaster is refused with an error and an empty trace. -/
theorem makeCoMaster_rejects_existing_comaster_witness :
    (MakeCoMaster envCoM kT).err ≠ none ∧ (MakeCoMaster envCoM kT).trace = [] :=
  makeCoMaster_rejects_existing_comaster envCoM kT (topo2Of kT) (topo2Of kU)
    (by decide) (by decide) (Or.inl (by decide))

/-- C10: every execution of MakeMaster that reaches the SetWritable step
    (the SetReadOnly call appears in its trace) returns a nil error and
    records the make-master audit entry, whatever the SetReadOnly call
    returned — its result is discarded at line 543 of the source. -/
theorem makeMaster_setReadOnly_discarded (env : Env) (instanceKey : InstanceKey)
    (h : Event.setReadOnly instanceKey false ∈ (MakeMaster env instanceKey).trace) :
    (MakeMaster env instanceKey).err = none ∧
    Event.audit "make-master" instanceKey ∈ (MakeMaster env instanceKey).trace := by
  rcases hr : MakeMaster env instanceKey with ⟨inst, err, tr⟩
  rw [hr] at h
  unfold MakeMaster makeMasterChecks makeMasterFinish at hr
  repeat' split at hr
  all_goals cases hr
  all_goals simp_all

/-- C10 witness: with SetReadOnly failing, MakeMaster still reaches the
    SetWritable step, returns nil and audits. -/
theorem makeMaster_setReadOnly_discarded_witness :
    (MakeMaster envReadOnlyFail kT).err = none ∧
    Event.audit "make-master" kT ∈ (MakeMaster envReadOnlyFail kT).trace :=
  makeMaster_setReadOnly_discarded envReadOnlyFail kT (by decide)

/-- Helper: the root fold stays unassigned when every instance's master
    key is found in the instance map. -/
theorem rootFold_eq_none (instances : List Instance)
    (h : ∀ i ∈ instances,
      (instancesMapFind instances i.masterKey).isSome = true) :
    rootFold instances = none := by
  unfold rootFold
  have haux : ∀ l : List Instance,
      (∀ i ∈ l, (instancesMapFind instances i.masterKey).isSome = true) →
      l.foldl
        (fun acc i =>
          if (instancesMapFind instances i.masterKey).isSome then acc
          else some i)
        none = none := by
    intro l
    induction l with
    | nil => intro _; rfl
    | cons a as ih =>
      intro hl
      simp only [List.foldl_cons]
      rw [if_pos (hl a (by simp))]
      exact ih (fun i hi => hl i (by simp [hi]))
  exact haux instances h

/-- C9: when the cluster read succeeds and every instance's MasterKey is
    present in the instance map — as for the empty cluster or a co-master
    2-cycle — the root variable is never assigned, and AsciiTopology ends
    in the nil dereference instead of returning an error. -/
theorem asciiTopology_missing_root_nil_deref (env : Env) (clusterName : String)
    (instances : List Instance)
    (hread : env.readClusterInstances clusterName = (instances, none))
    (h : ∀ i ∈ instances,
      (instancesMapFind instances i.masterKey).isSome = true) :
    rootFold instances = none ∧
    AsciiTopology env clusterName = AsciiOutcome.nilDeref := by
  have hroot := rootFold_eq_none instances h
  refine ⟨hroot, ?_⟩
  unfold AsciiTopology
  simp [hread, hroot, getAsciiTopologyEntry]

/-- C9 witness: the co-master 2-cycle cluster has no root and the
    renderer dereferences nil. -/
theorem asciiTopology_missing_root_nil_deref_witness :
    rootFold [topo2Of kT, topo2Of kU] = none ∧
    AsciiTopology envTwoCycle "c" = AsciiOutcome.nilDeref :=
  asciiTopology_missing_root_nil_deref envTwoCycle "c" [topo2Of kT, topo2Of kU]
    (by decide) (by decide)

/-- C6 (amended): MakeMaster examines its upstream's state only when the
    probe of the upstream fails.  On a failed probe it refuses with a
    precondition error and no call issued when the stale upstream data
    shows it replicating, or not replicating but with a valid last check;
    when the probe succeeds it proceeds without examining the upstream at
    all, so any run that reaches the mutation step had either a
    successful probe or an upstream seen neither replicating nor with a
    valid last check. -/
theorem makeMaster_master_gate (env : Env) (instanceKey : InstanceKey) :
    (∀ instance0 masterInstance0 e,
      env.readTopologyInstance instanceKey = (instance0, none) →
      env.readTopologyInstance instance0.masterKey = (masterInstance0, some e) →
      (masterInstance0.isSlaveFlag = true →
        MakeMaster env instanceKey =
          { inst := instance0,
            err := some (makeMasterReplicatingMsg masterInstance0.key),
            trace := [] }) ∧
      (masterInstance0.isSlaveFlag = false →
        masterInstance0.isLastCheckValid = true →
        MakeMaster env instanceKey =
          { inst := instance0,
            err := some (makeMasterAccessibleMsg masterInstance0.key),
            trace := [] })) ∧
    (Event.setReadOnly instanceKey false ∈ (MakeMaster env instanceKey).trace →
      (env.readTopologyInstance
        ((env.readTopologyInstance instanceKey).1.masterKey)).2 = none ∨
      ((env.readTopologyInstance
          ((env.readTopologyInstance instanceKey).1.masterKey)).1.isSlaveFlag
            = false ∧
        (env.readTopologyInstance
          ((env.readTopologyInstance instanceKey).1.masterKey)).1.isLastCheckValid
            = false)) := by
  constructor
  · intro instance0 masterInstance0 e h0 h1
    constructor
    · intro hsl
      unfold MakeMaster
      simp [h0, h1, hsl]
    · intro hsl hck
      unfold MakeMaster
      simp [h0, h1, hsl, hck]
  · intro h
    rcases hr : MakeMaster env instanceKey with ⟨inst, err, tr⟩
    rw [hr] at h
    unfold MakeMaster makeMasterChecks makeMasterFinish at hr
    repeat' split at hr
    all_goals cases hr
    all_goals simp_all

/-- C6 witness: with the upstream probe failing while the stale data
    still shows the upstream replicating, MakeMaster refuses with the
    replicating-precondition error and an empty trace. -/
theorem makeMaster_master_gate_witness :
    MakeMaster envProbeFailU kT =
      { inst := topoOf kT,
        err := some (makeMasterReplicatingMsg (topoOf kU).key),
        trace := [] } :=
  ((makeMaster_master_gate envProbeFailU kT).1 (topoOf kT) (topoOf kU)
    "probe failed" (by decide) (by decide)).1 (by decide)

/-- C4: whenever the matcher pipeline of MatchBelow fails — no
    pseudo-GTID entry found on the target, the entry text not found on
    the other node, or the forward diff failing — the operator returns
    that error, never issues ChangeUpstream, and restarts the target. -/
theorem matchBelow_matcher_failure_no_repoint (env : Env)
    (instanceKey otherKey : InstanceKey) (f1 f2 : Bool)
    (instance0 otherInstance0 instance1 : Instance)
    (h0 : env.readTopologyInstance instanceKey = (instance0, none))
    (hkey : (instanceKey == otherKey) = false)
    (h1 : env.readTopologyInstance otherKey = (otherInstance0, none))
    (h2 : env.canMoveViaMatch (env.readInstance instance0.key).1 = none)
    (h3 : env.canReplicateFrom instance0 otherInstance0 = none)
    (hb : ∀ j, env.beginMaintenance j = none)
    (h4 : env.stopSlave instanceKey = (instance1, none)) :
    (∀ c t e, env.getLastPseudoGTIDEntryInInstance instance1 = (c, t, some e) →
      (MatchBelow env instanceKey otherKey f1 f2).err = some e ∧
      hasChangeMaster (MatchBelow env instanceKey otherKey f1 f2).trace = false ∧
      Event.startSlave instanceKey ∈
        (MatchBelow env instanceKey otherKey f1 f2).trace) ∧
    (∀ c t c2 e,
      env.getLastPseudoGTIDEntryInInstance instance1 = (c, t, none) →
      env.searchPseudoGTIDEntryInInstance otherInstance0 t = (c2, some e) →
      (MatchBelow env instanceKey otherKey f1 f2).err = some e ∧
      hasChangeMaster (MatchBelow env instanceKey otherKey f1 f2).trace = false ∧
      Event.startSlave instanceKey ∈
        (MatchBelow env instanceKey otherKey f1 f2).trace) ∧
    (∀ c t c2 c3 e,
      env.getLastPseudoGTIDEntryInInstance instance1 = (c, t, none) →
      env.searchPseudoGTIDEntryInInstance otherInstance0 t = (c2, none) →
      env.getNextBinlogCoordinatesToMatch instance1 c otherInstance0 c2
        = (c3, some e) →
      (MatchBelow env instanceKey otherKey f1 f2).err = some e ∧
      hasChangeMaster (MatchBelow env instanceKey otherKey f1 f2).trace = false ∧
      Event.startSlave instanceKey ∈
        (MatchBelow env instanceKey otherKey f1 f2).trace) := by
  refine ⟨?_, ?_, ?_⟩
  · intro c t e hfail
    unfold MatchBelow matchBelowLeaseOther matchBelowDrive matchBelowCleanup
    cases f1 <;> cases f2 <;>
      simp [h0, hkey, h1, h2, h3, hb, h4, hfail, hasChangeMaster]
  · intro c t c2 e hlast hfail
    unfold MatchBelow matchBelowLeaseOther matchBelowDrive matchBelowCleanup
    cases f1 <;> cases f2 <;>
      simp [h0, hkey, h1, h2, h3, hb, h4, hlast, hfail, hasChangeMaster]
  · intro c t c2 c3 e hlast hsearch hfail
    unfold MatchBelow matchBelowLeaseOther matchBelowDrive matchBelowCleanup
    cases f1 <;> cases f2 <;>
      simp [h0, hkey, h1, h2, h3, hb, h4, hlast, hsearch, hfail, hasChangeMaster]

/-- C4 witness: with no pseudo-GTID entry on the target, MatchBelow
    returns that error, issues no ChangeUpstream and restarts the
    target. -/
theorem matchBelow_matcher_failure_no_repoint_witness :
    (MatchBelow envNoMarker kT kM true false).err = some "no pseudo gtid entry" ∧
    hasChangeMaster (MatchBelow envNoMarker kT kM true false).trace = false ∧
    Event.startSlave kT ∈ (MatchBelow envNoMarker kT kM true false).trace :=
  (matchBelow_matcher_failure_no_repoint envNoMarker kT kM true false
    (topoOf kT) (topoOf kM) (topoOf kT) (by decide) (by decide) (by decide)
    (by decide) (by decide) (fun _ => rfl) (by decide)).1
    coordExec "" "no pseudo gtid entry" (by decide)

/-- Helper: the character-wise lexicographic comparison is irreflexive. -/
theorem strLtAux_irrefl (l : List Char) : strLtAux l l = false := by
  induction l with
  | nil => rfl
  | cons a as ih => simp [strLtAux, ih]

/-- Helper: the coordinate order is irreflexive. -/
theorem smallerThan_irrefl (c : BinlogCoordinates) : SmallerThan c c = false := by
  simp [SmallerThan, strLtAux_irrefl]

/-- Helper: the character-wise lexicographic comparison is asymmetric. -/
theorem strLtAux_asymm : ∀ l1 l2 : List Char,
    strLtAux l1 l2 = true → strLtAux l2 l1 = false
  | [], [] => by simp [strLtAux]
  | [], _ :: _ => by simp [strLtAux]
  | _ :: _, [] => by simp [strLtAux]
  | a :: as, b :: bs => by
    simp only [strLtAux]
    intro h
    by_cases hab : a.toNat < b.toNat
    · have h1 : ¬ b.toNat < a.toNat := by omega
      have h2 : (b.toNat == a.toNat) = false := by
        simp only [beq_eq_false_iff_ne, ne_eq]
        omega
      simp [h1, h2]
    · by_cases heq : a.toNat = b.toNat
      · have h1 : ¬ b.toNat < a.toNat := by omega
        have h2 : (b.toNat == a.toNat) = true := by
          simp [heq]
        have hmem : strLtAux as bs = true := by
          simpa [hab, heq] using h
        have hrec := strLtAux_asymm as bs hmem
        simp [h1, h2, hrec]
      · have : False := by
          have heqb : (a.toNat == b.toNat) = false := by
            simp only [beq_eq_false_iff_ne, ne_eq]
            exact heq
          simp [hab, heqb] at h
        exact this.elim

/-- Helper: the coordinate order is asymmetric. -/
theorem smallerThan_asymm (a b : BinlogCoordinates)
    (h : SmallerThan a b = true) : SmallerThan b a = false := by
  unfold SmallerThan at h ⊢
  by_cases hfe : a.logFile = b.logFile
  · rw [hfe] at h ⊢
    rw [strLtAux_irrefl] at h ⊢
    simp at h ⊢
    omega
  · have hbe : (a.logFile == b.logFile) = false := by
      simp only [beq_eq_false_iff_ne, ne_eq]
      exact hfe
    rw [hbe] at h
    simp at h
    have h1 := strLtAux_asymm _ _ h
    have h2 : (b.logFile == a.logFile) = false := by
      simp only [beq_eq_false_iff_ne, ne_eq]
      exact fun hc => hfe hc.symm
    simp [h1, h2]

/-- C2: whenever MoveUp's gates pass and every driver call succeeds, the
    operator performs exactly, in order: lease target, lease upstream,
    Stop upstream, Stop target, StartUntil(target, upstream.SelfCoord)
    with the upstream's self coordinates as re-read by the Stop call,
    ChangeUpstream(target, upstream.UpstreamKey, upstream.ExecCoord) from
    that same post-stop read, then Start target and Start upstream, the
    audit record, and the lease releases. -/
theorem moveUp_success_sequence (env : Env) (instanceKey : InstanceKey)
    (instance0 master0 master1 i2 i3 i4 : Instance)
    (h0 : env.readTopologyInstance instanceKey = (instance0, none))
    (hs : instance0.isSlaveFlag = true)
    (h1 : env.canMove (env.readInstance instance0.key).1 = none)
    (h2 : env.readTopologyInstance instance0.masterKey = (master0, none))
    (hms : master0.isSlaveFlag = true)
    (h3 : env.canReplicateFrom instance0 master0 = none)
    (hb1 : env.beginMaintenance instanceKey = none)
    (hb2 : env.beginMaintenance master0.key = none)
    (h4 : env.stopSlave master0.key = (master1, none))
    (hkey : master1.key = master0.key)
    (h5 : env.stopSlave instanceKey = (i2, none))
    (h6 : env.startSlaveUntilMasterCoordinates instanceKey
      master1.selfBinlogCoordinates = (i3, none))
    (h7 : env.changeMasterTo instanceKey master1.masterKey
      master1.execBinlogCoordinates = (i4, none)) :
    MoveUp env instanceKey =
      { inst := (env.startSlave instanceKey).1, err := none,
        trace := [Event.beginMaintenance instanceKey,
          Event.beginMaintenance master0.key,
          Event.stopSlave master0.key, Event.stopSlave instanceKey,
          Event.startSlaveUntil instanceKey master1.selfBinlogCoordinates,
          Event.changeMasterTo instanceKey master1.masterKey
            master1.execBinlogCoordinates,
          Event.startSlave instanceKey, Event.startSlave master0.key,
          Event.audit "move-up" instanceKey,
          Event.endMaintenance master0.key,
          Event.endMaintenance instanceKey] } := by
  unfold MoveUp moveUpLocked moveUpCleanup
  simp [h0, hs, h1, h2, hms, h3, hb1, hb2, h4, hkey, h5, h6, h7]

/-- C2 witness: the full success run over the straight-line topology. -/
theorem moveUp_success_sequence_witness :
    MoveUp envOK kT =
      { inst := topoOf kT, err := none,
        trace := [Event.beginMaintenance kT, Event.beginMaintenance kU,
          Event.stopSlave kU, Event.stopSlave kT,
          Event.startSlaveUntil kT coordSelf,
          Event.changeMasterTo kT kM coordExec,
          Event.startSlave kT, Event.startSlave kU,
          Event.audit "move-up" kT,
          Event.endMaintenance kU, Event.endMaintenance kT] } := by
  rw [moveUp_success_sequence envOK kT (topoOf kT) (topoOf kU) (topoOf kU)
    (topoOf kT) (topoOf kT) (topoOf kT) (by decide) (by decide) (by decide)
    (by decide) (by decide) (by decide) (by decide) (by decide) (by decide)
    (by decide) (by decide) (by decide) (by decide)]
  decide

/-- C5: in MoveBelow, once both nodes are stopped, the node with the
    strictly smaller executed coordinates — and only that node — is
    advanced with StartUntil to the other's executed coordinates; when
    the two executed coordinates are equal no StartUntil is issued at
    all; in each case the target is then re-pointed below the sibling at
    the current sibling snapshot's key and self coordinates. -/
theorem moveBelow_equalization (env : Env) (instanceKey siblingKey : InstanceKey)
    (instance0 sibling0 instance1 sibling1 : Instance)
    (hne : instanceKey ≠ siblingKey)
    (h0 : env.readTopologyInstance instanceKey = (instance0, none))
    (h1 : env.readTopologyInstance siblingKey = (sibling0, none))
    (h2 : env.canMove (env.readInstance instance0.key).1 = none)
    (h3 : env.canMove (env.readInstance sibling0.key).1 = none)
    (h4 : InstancesAreSiblings instance0 sibling0 = true)
    (h5 : env.canReplicateFrom instance0 sibling0 = none)
    (hb1 : env.beginMaintenance instanceKey = none)
    (hb2 : env.beginMaintenance siblingKey = none)
    (h6 : env.stopSlave instanceKey = (instance1, none))
    (h7 : env.stopSlave siblingKey = (sibling1, none)) :
    (SmallerThan instance1.execBinlogCoordinates sibling1.execBinlogCoordinates
        = true →
      Event.startSlaveUntil instanceKey sibling1.execBinlogCoordinates ∈
        (MoveBelow env instanceKey siblingKey).trace ∧
      (∀ c, Event.startSlaveUntil siblingKey c ∉
        (MoveBelow env instanceKey siblingKey).trace) ∧
      ((env.startSlaveUntilMasterCoordinates instanceKey
          sibling1.execBinlogCoordinates).2 = none →
        Event.changeMasterTo instanceKey sibling1.key
          sibling1.selfBinlogCoordinates ∈
          (MoveBelow env instanceKey siblingKey).trace)) ∧
    (SmallerThan sibling1.execBinlogCoordinates instance1.execBinlogCoordinates
        = true →
      Event.startSlaveUntil siblingKey instance1.execBinlogCoordinates ∈
        (MoveBelow env instanceKey siblingKey).trace ∧
      (∀ c, Event.startSlaveUntil instanceKey c ∉
        (MoveBelow env instanceKey siblingKey).trace) ∧
      ((env.startSlaveUntilMasterCoordinates siblingKey
          instance1.execBinlogCoordinates).2 = none →
        Event.changeMasterTo instanceKey
          (env.startSlaveUntilMasterCoordinates siblingKey
            instance1.execBinlogCoordinates).1.key
          (env.startSlaveUntilMasterCoordinates siblingKey
            instance1.execBinlogCoordinates).1.selfBinlogCoordinates ∈
          (MoveBelow env instanceKey siblingKey).trace)) ∧
    (instance1.execBinlogCoordinates = sibling1.execBinlogCoordinates →
      (∀ j c, Event.startSlaveUntil j c ∉
        (MoveBelow env instanceKey siblingKey).trace) ∧
      Event.changeMasterTo instanceKey sibling1.key
        sibling1.selfBinlogCoordinates ∈
        (MoveBelow env instanceKey siblingKey).trace) := by
  refine ⟨?_, ?_, ?_⟩
  · intro hlt
    rcases hsu : env.startSlaveUntilMasterCoordinates instanceKey
        sibling1.execBinlogCoordinates with ⟨su, se⟩
    rcases hcm : env.changeMasterTo instanceKey sibling1.key
        sibling1.selfBinlogCoordinates with ⟨cm, ce⟩
    unfold MoveBelow moveBelowDrive moveBelowRepoint moveBelowCleanup
    cases se <;> cases ce <;>
      simp [h0, h1, h2, h3, h4, h5, hb1, hb2, h6, h7, hlt, hsu, hcm, hne,
        Ne.symm hne]
  · intro hlt
    have hlt2 : SmallerThan instance1.execBinlogCoordinates
        sibling1.execBinlogCoordinates = false := by
      cases hcontra : SmallerThan instance1.execBinlogCoordinates
          sibling1.execBinlogCoordinates with
      | false => rfl
      | true => exact absurd hlt (by simp [smallerThan_asymm _ _ hcontra])
    rcases hsu : env.startSlaveUntilMasterCoordinates siblingKey
        instance1.execBinlogCoordinates with ⟨su, se⟩
    rcases hcm : env.changeMasterTo instanceKey su.key
        su.selfBinlogCoordinates with ⟨cm, ce⟩
    unfold MoveBelow moveBelowDrive moveBelowRepoint moveBelowCleanup
    cases se <;> cases ce <;>
      simp [h0, h1, h2, h3, h4, h5, hb1, hb2, h6, h7, hlt, hlt2, hsu, hcm,
        hne, Ne.symm hne]
  · intro heqc
    have hf1 : SmallerThan instance1.execBinlogCoordinates
        sibling1.execBinlogCoordinates = false := by
      rw [heqc]; exact smallerThan_irrefl _
    have hf2 : SmallerThan sibling1.execBinlogCoordinates
        instance1.execBinlogCoordinates = false := by
      rw [heqc]; exact smallerThan_irrefl _
    rcases hcm : env.changeMasterTo instanceKey sibling1.key
        sibling1.selfBinlogCoordinates with ⟨cm, ce⟩
    unfold MoveBelow moveBelowDrive moveBelowRepoint moveBelowCleanup
    cases ce <;>
      simp [h0, h1, h2, h3, h4, h5, hb1, hb2, h6, h7, hf1, hf2, hcm, hne,
        Ne.symm hne]

/-- C5 witness: with equal executed coordinates no StartUntil is issued
    and the target is re-pointed below the sibling. -/
theorem moveBelow_equalization_witness :
    (MoveBelow envOK kB kA).trace.all
      (fun e => match e with
        | Event.startSlaveUntil _ _ => false
        | _ => true) = true ∧
    Event.changeMasterTo kB kA coordSelf ∈ (MoveBelow envOK kB kA).trace :=
  ⟨by decide,
    ((moveBelow_equalization envOK kB kA (topoOf kB) (topoOf kA) (topoOf kB)
      (topoOf kA) (by decide) (by decide) (by decide) (by decide) (by decide)
      (by decide) (by decide) (by decide) (by decide) (by decide)
      (by decide)).2.2 (by decide)).2⟩

/-- Helper: MatchBelow restarts every node it stopped with plain Stop, on
    every exit path. -/
theorem matchBelow_stop_balance (env : Env) (a b : InstanceKey) (f1 f2 : Bool)
    (j : InstanceKey)
    (h : Event.stopSlave j ∈ (MatchBelow env a b f1 f2).trace) :
    Event.startSlave j ∈ (MatchBelow env a b f1 f2).trace := by
  rcases hr : MatchBelow env a b f1 f2 with ⟨inst, err, tr⟩
  rw [hr] at h
  unfold MatchBelow matchBelowLeaseOther matchBelowDrive matchBelowCleanup at hr
  repeat' split at hr
  all_goals cases hr
  all_goals simp_all

/-- Helper: the enslave fan-out restarts every node it stopped, since
    each inner MatchBelow does. -/
theorem enslaveSiblings_stop_balance (env : Env) (k : InstanceKey)
    (siblings : List Instance) (j : InstanceKey)
    (h : Event.stopSlave j ∈ enslaveSiblingsTrace env k siblings) :
    Event.startSlave j ∈ enslaveSiblingsTrace env k siblings := by
  induction siblings with
  | nil => simp [enslaveSiblingsTrace] at h
  | cons a rest ih =>
    unfold enslaveSiblingsTrace at h ⊢
    rcases List.mem_append.mp h with h1 | h2
    · by_cases hc : a.sqlThreadUpToDateFlag && !(a.key == k)
      · rw [if_pos hc] at h1
        exact List.mem_append.mpr
          (Or.inl (by rw [if_pos hc]; exact matchBelow_stop_balance _ _ _ _ _ _ h1))
      · rw [if_neg hc] at h1
        simp at h1
    · exact List.mem_append.mpr (Or.inr (ih h2))

/-- Helper: MoveUp restarts every node it stopped, on every exit path;
    the driver contract that Stop returns the refreshed node of the same
    key is needed because the cleanup starts the master under the key of
    the instance value the Stop call returned. -/
theorem moveUp_stop_balance (env : Env) (k : InstanceKey) (j : InstanceKey)
    (hwf : ∀ x, (env.stopSlave x).1.key = x)
    (h : Event.stopSlave j ∈ (MoveUp env k).trace) :
    Event.startSlave j ∈ (MoveUp env k).trace := by
  unfold MoveUp moveUpLocked moveUpCleanup at h ⊢
  rcases h0 : env.readTopologyInstance k with ⟨i0, e0⟩
  simp only [h0] at h ⊢
  cases e0 with
  | some e => simp at h
  | none =>
  cases hs : i0.isSlaveFlag with
  | false => simp [hs] at h
  | true =>
  simp only [hs] at h ⊢
  rcases hc : env.canMove (env.readInstance i0.key).1 with _ | merr
  case some => simp [hc] at h
  case none =>
  simp only [hc] at h ⊢
  rcases h2 : env.readTopologyInstance i0.masterKey with ⟨m0, e2⟩
  simp only [h2] at h ⊢
  cases e2 with
  | some e => simp at h
  | none =>
  cases hms : m0.isSlaveFlag with
  | false => simp [hms] at h
  | true =>
  simp only [hms] at h ⊢
  rcases hcr : env.canReplicateFrom i0 m0 with _ | e3
  case some => simp [hcr] at h
  case none =>
  simp only [hcr] at h ⊢
  rcases hb1 : env.beginMaintenance k with _ | eb1
  case some => simp [hb1] at h
  case none =>
  simp only [hb1] at h ⊢
  rcases hb2 : env.beginMaintenance m0.key with _ | eb2
  case some => simp [hb2] at h
  case none =>
  simp only [hb2] at h ⊢
  rcases h4 : env.stopSlave m0.key with ⟨m1, e4⟩
  have hk1 : m1.key = m0.key := by
    have htmp := hwf m0.key
    rw [h4] at htmp
    exact htmp
  simp only [h4] at h ⊢
  cases e4 with
  | some e =>
    simp at h ⊢
    simp [h, hk1]
  | none =>
  rcases h5 : env.stopSlave k with ⟨i1, e5⟩
  simp only [h5] at h ⊢
  cases e5 with
  | some e =>
    simp at h ⊢
    rcases h with rfl | rfl <;> simp [hk1]
  | none =>
  rcases h6 : env.startSlaveUntilMasterCoordinates k m1.selfBinlogCoordinates
    with ⟨i2, e6⟩
  simp only [h6] at h ⊢
  cases e6 with
  | some e =>
    simp at h ⊢
    rcases h with rfl | rfl <;> simp [hk1]
  | none =>
  rcases h7 : env.changeMasterTo k m1.masterKey m1.execBinlogCoordinates
    with ⟨i3, e7⟩
  simp only [h7] at h ⊢
  cases e7 with
  | some e =>
    simp at h ⊢
    rcases h with rfl | rfl <;> simp [hk1]
  | none =>
    simp at h ⊢
    rcases h with rfl | rfl <;> simp [hk1]

/-- Helper: MoveBelow restarts every node it stopped, on every exit
    path (its cleanup starts both parameter keys, which are the keys it
    stopped). -/
theorem moveBelow_stop_balance (env : Env) (k s j : InstanceKey)
    (h : Event.stopSlave j ∈ (MoveBelow env k s).trace) :
    Event.startSlave j ∈ (MoveBelow env k s).trace := by
  rcases hr : MoveBelow env k s with ⟨inst, err, tr⟩
  rw [hr] at h
  unfold MoveBelow moveBelowDrive moveBelowRepoint moveBelowCleanup at hr
  repeat' split at hr
  all_goals cases hr
  all_goals simp_all

/-- Helper: MakeCoMaster stops nothing, so the balance holds vacuously. -/
theorem makeCoMaster_stop_balance (env : Env) (k j : InstanceKey)
    (h : Event.stopSlave j ∈ (MakeCoMaster env k).trace) :
    Event.startSlave j ∈ (MakeCoMaster env k).trace := by
  rcases hr : MakeCoMaster env k with ⟨inst, err, tr⟩
  rw [hr] at h
  unfold MakeCoMaster makeCoMasterCleanup at hr
  repeat' split at hr
  all_goals cases hr
  all_goals simp_all

/-- Helper: ResetSlaveOperation restarts the node it stopped, on every
    exit path. -/
theorem resetSlave_stop_balance (env : Env) (k j : InstanceKey)
    (h : Event.stopSlave j ∈ (ResetSlaveOperation env k).trace) :
    Event.startSlave j ∈ (ResetSlaveOperation env k).trace := by
  rcases hr : ResetSlaveOperation env k with ⟨inst, err, tr⟩
  rw [hr] at h
  unfold ResetSlaveOperation resetSlaveDrive resetSlaveCleanup at hr
  repeat' split at hr
  all_goals cases hr
  all_goals simp_all

/-- Helper: MakeMaster issues Stop only inside the enslave fan-out, whose
    inner MatchBelow calls restart what they stopped. -/
theorem makeMaster_stop_balance (env : Env) (k j : InstanceKey)
    (h : Event.stopSlave j ∈ (MakeMaster env k).trace) :
    Event.startSlave j ∈ (MakeMaster env k).trace := by
  rcases hr : MakeMaster env k with ⟨inst, err, tr⟩
  rw [hr] at h
  unfold MakeMaster makeMasterChecks makeMasterFinish at hr
  repeat' split at hr
  all_goals cases hr
  all_goals try simp_all
  all_goals exact enslaveSiblings_stop_balance env k _ j (by assumption)

/-- Helper: in MakeLocalMaster every plain Stop comes from the inner
    MatchBelow call or the enslave fan-out, both of which restart what
    they stopped; only the StopNicely on the target itself has no paired
    Start. -/
theorem makeLocalMaster_stop_balance (env : Env) (k j : InstanceKey)
    (h : Event.stopSlave j ∈ (MakeLocalMaster env k).trace) :
    Event.startSlave j ∈ (MakeLocalMaster env k).trace := by
  unfold MakeLocalMaster makeLocalMasterDrive makeLocalMasterFinish at h ⊢
  rcases h0 : env.readTopologyInstance k with ⟨i0, e0⟩
  simp only [h0] at h ⊢
  cases e0 with
  | some e => simp at h
  | none =>
  rcases h1 : env.readInstance i0.masterKey with ⟨mi, fnd, e1⟩
  simp only [h1] at h ⊢
  cases e1 with
  | some e => simp at h
  | none =>
  cases hf : fnd with
  | false => simp [hf] at h
  | true =>
  simp only [hf] at h ⊢
  rcases h2 : env.readTopologyInstance mi.masterKey with ⟨g0, e2⟩
  simp only [h2] at h ⊢
  cases e2 with
  | some e => simp at h
  | none =>
  rcases h3 : env.readSlaveInstances mi.key with ⟨sibs, e3⟩
  simp only [h3] at h ⊢
  cases e3 with
  | some e => simp at h
  | none =>
  rcases h4 : sibs.find?
      (fun s => SmallerThan i0.execBinlogCoordinates s.execBinlogCoordinates)
    with _ | s0
  case some => simp [h4] at h
  case none =>
  simp only [h4] at h ⊢
  rcases hb : env.beginMaintenance k with _ | eb
  case some => simp [hb] at h
  case none =>
  simp only [hb] at h ⊢
  rcases h5 : env.stopSlaveNicely k with ⟨i1, e5⟩
  simp only [h5] at h ⊢
  cases e5 with
  | some e => simp at h
  | none =>
  rcases hm : (MatchBelow env k g0.key false false).err with _ | em
  · simp only [hm] at h ⊢
    simp at h ⊢
    rcases h with h | h
    · exact Or.inl (matchBelow_stop_balance env k g0.key false false j h)
    · exact Or.inr (enslaveSiblings_stop_balance env k sibs j h)
  · simp only [hm] at h ⊢
    simp at h ⊢
    exact matchBelow_stop_balance env k g0.key false false j h

/-- C1 (amended): after any operator returns, every node it stopped with
    plain Stop has had Start attempted — including the Stops issued
    inside MakeMaster's and MakeLocalMaster's enslave fan-out (MoveUp
    additionally relies on the driver contract that Stop returns the
    refreshed node of the requested key).  The exception forced by the
    counterexample is MakeLocalMaster's StopNicely on its own target,
    which is restarted only through the inner MatchBelow's cleanup and
    therefore not at all when that MatchBelow fails one of its early
    precondition or read steps. -/
theorem stop_start_balance (env : Env) (k s o : InstanceKey) (f1 f2 : Bool)
    (j : InstanceKey) (hwf : ∀ x, (env.stopSlave x).1.key = x) :
    (Event.stopSlave j ∈ (MoveUp env k).trace →
      Event.startSlave j ∈ (MoveUp env k).trace) ∧
    (Event.stopSlave j ∈ (MoveBelow env k s).trace →
      Event.startSlave j ∈ (MoveBelow env k s).trace) ∧
    (Event.stopSlave j ∈ (MakeCoMaster env k).trace →
      Event.startSlave j ∈ (MakeCoMaster env k).trace) ∧
    (Event.stopSlave j ∈ (ResetSlaveOperation env k).trace →
      Event.startSlave j ∈ (ResetSlaveOperation env k).trace) ∧
    (Event.stopSlave j ∈ (MatchBelow env k o f1 f2).trace →
      Event.startSlave j ∈ (MatchBelow env k o f1 f2).trace) ∧
    (Event.stopSlave j ∈ (MakeMaster env k).trace →
      Event.startSlave j ∈ (MakeMaster env k).trace) ∧
    (Event.stopSlave j ∈ (MakeLocalMaster env k).trace →
      Event.startSlave j ∈ (MakeLocalMaster env k).trace) :=
  ⟨moveUp_stop_balance env k j hwf, moveBelow_stop_balance env k s j,
    makeCoMaster_stop_balance env k j, resetSlave_stop_balance env k j,
    matchBelow_stop_balance env k o f1 f2 j, makeMaster_stop_balance env k j,
    makeLocalMaster_stop_balance env k j⟩

/-- C1 witness: in the all-success MoveUp run the target was stopped, and
    the balance theorem yields the Start on it. -/
theorem stop_start_balance_witness :
    Event.stopSlave kT ∈ (MoveUp envOK kT).trace ∧
    Event.startSlave kT ∈ (MoveUp envOK kT).trace :=
  ⟨by decide,
    (stop_start_balance envOK kT kA kM true false kT (fun _ => rfl)).1
      (by decide)⟩

/-- Helper: lease-failure behavior of MoveUp. -/
theorem moveUp_leaseFail_aux (env : Env) (k j : InstanceKey) (e : ErrMsg)
    (hmem : Event.beginMaintenance j ∈ (MoveUp env k).trace)
    (hb : env.beginMaintenance j = some e) :
    (MoveUp env k).err = some (cannotBeginMaintenanceMsg j) ∧
    hasHardMutation (MoveUp env k).trace = false := by
  rcases hr : MoveUp env k with ⟨inst, err, tr⟩
  rw [hr] at hmem
  unfold MoveUp moveUpLocked moveUpCleanup at hr
  repeat' split at hr
  all_goals cases hr
  all_goals try simp_all [hasHardMutation, isHardMutation]
  all_goals rcases hmem with rfl | rfl <;>
    simp_all [hasHardMutation, isHardMutation]

/-- Helper: lease-failure behavior of MoveBelow. -/
theorem moveBelow_leaseFail_aux (env : Env) (k s j : InstanceKey) (e : ErrMsg)
    (hmem : Event.beginMaintenance j ∈ (MoveBelow env k s).trace)
    (hb : env.beginMaintenance j = some e) :
    (MoveBelow env k s).err = some (cannotBeginMaintenanceMsg j) ∧
    hasHardMutation (MoveBelow env k s).trace = false := by
  rcases hr : MoveBelow env k s with ⟨inst, err, tr⟩
  rw [hr] at hmem
  unfold MoveBelow moveBelowDrive moveBelowRepoint moveBelowCleanup at hr
  repeat' split at hr
  all_goals cases hr
  all_goals try simp_all [hasHardMutation, isHardMutation]
  all_goals rcases hmem with rfl | rfl <;>
    simp_all [hasHardMutation, isHardMutation]

/-- Helper: lease-failure behavior of MakeCoMaster. -/
theorem makeCoMaster_leaseFail_aux (env : Env) (k j : InstanceKey) (e : ErrMsg)
    (hmem : Event.beginMaintenance j ∈ (MakeCoMaster env k).trace)
    (hb : env.beginMaintenance j = some e) :
    (MakeCoMaster env k).err = some (cannotBeginMaintenanceMsg j) ∧
    hasHardMutation (MakeCoMaster env k).trace = false := by
  rcases hr : MakeCoMaster env k with ⟨inst, err, tr⟩
  rw [hr] at hmem
  unfold MakeCoMaster makeCoMasterCleanup at hr
  repeat' split at hr
  all_goals cases hr
  all_goals try simp_all [hasHardMutation, isHardMutation]
  all_goals rcases hmem with rfl | rfl <;>
    simp_all [hasHardMutation, isHardMutation]

/-- Helper: lease-failure behavior of ResetSlaveOperation. -/
theorem resetSlave_leaseFail_aux (env : Env) (k j : InstanceKey) (e : ErrMsg)
    (hmem : Event.beginMaintenance j ∈ (ResetSlaveOperation env k).trace)
    (hb : env.beginMaintenance j = some e) :
    (ResetSlaveOperation env k).err = some (cannotBeginMaintenanceMsg j) ∧
    hasHardMutation (ResetSlaveOperation env k).trace = false := by
  rcases hr : ResetSlaveOperation env k with ⟨inst, err, tr⟩
  rw [hr] at hmem
  unfold ResetSlaveOperation resetSlaveDrive resetSlaveCleanup at hr
  repeat' split at hr
  all_goals cases hr
  all_goals try simp_all [hasHardMutation, isHardMutation]
  all_goals rcases hmem with rfl | rfl <;>
    simp_all [hasHardMutation, isHardMutation]

/-- Helper: lease-failure behavior of MatchBelow. -/
theorem matchBelow_leaseFail_aux (env : Env) (a b : InstanceKey) (f1 f2 : Bool)
    (j : InstanceKey) (e : ErrMsg)
    (hmem : Event.beginMaintenance j ∈ (MatchBelow env a b f1 f2).trace)
    (hb : env.beginMaintenance j = some e) :
    (MatchBelow env a b f1 f2).err = some (cannotBeginMaintenanceMsg j) ∧
    hasHardMutation (MatchBelow env a b f1 f2).trace = false := by
  rcases hr : MatchBelow env a b f1 f2 with ⟨inst, err, tr⟩
  rw [hr] at hmem
  unfold MatchBelow matchBelowLeaseOther matchBelowDrive matchBelowCleanup at hr
  repeat' split at hr
  all_goals cases hr
  all_goals try simp_all [hasHardMutation, isHardMutation]
  all_goals rcases hmem with rfl | rfl <;>
    simp_all [hasHardMutation, isHardMutation]

/-- Helper: lease-failure behavior of MakeMaster on its own lease. -/
theorem makeMaster_leaseFail_aux (env : Env) (k : InstanceKey) (e : ErrMsg)
    (hb : env.beginMaintenance k = some e)
    (hmem : Event.beginMaintenance k ∈ (MakeMaster env k).trace) :
    (MakeMaster env k).err = some (cannotBeginMaintenanceMsg k) ∧
    hasHardMutation (MakeMaster env k).trace = false := by
  rcases hr : MakeMaster env k with ⟨inst, err, tr⟩
  rw [hr] at hmem
  unfold MakeMaster makeMasterChecks makeMasterFinish at hr
  repeat' split at hr
  all_goals first
    | (cases hr; simp_all [hasHardMutation, isHardMutation])
    | simp_all [hasHardMutation, isHardMutation]

/-- Helper: lease-failure behavior of MakeLocalMaster on its own lease. -/
theorem makeLocalMaster_leaseFail_aux (env : Env) (k : InstanceKey) (e : ErrMsg)
    (hb : env.beginMaintenance k = some e)
    (hmem : Event.beginMaintenance k ∈ (MakeLocalMaster env k).trace) :
    (MakeLocalMaster env k).err = some (cannotBeginMaintenanceMsg k) ∧
    hasHardMutation (MakeLocalMaster env k).trace = false := by
  rcases hr : MakeLocalMaster env k with ⟨inst, err, tr⟩
  rw [hr] at hmem
  unfold MakeLocalMaster makeLocalMasterDrive makeLocalMasterFinish at hr
  repeat' split at hr
  all_goals first
    | (cases hr; simp_all [hasHardMutation, isHardMutation])
    | simp_all [hasHardMutation, isHardMutation]

/-- C3 (amended): whenever a lease acquisition attempted by an operator
    fails, the operator returns the error naming that key and issues no
    Stop, StopNicely, StartUntil, ChangeUpstream, Reset or SetWritable
    call; the unconditional cleanup Start calls are still issued, so the
    claimed `no driver mutation at all` does not hold for Start.  For
    MakeMaster and MakeLocalMaster this covers the operator's own lease
    on the target; lease failures inside their enslave fan-out belong to
    the inner MatchBelow operators, whose errors the fan-out deliberately
    swallows. -/
theorem lease_failure_behavior (env : Env) (k s o : InstanceKey) (f1 f2 : Bool)
    (j : InstanceKey) (e : ErrMsg) :
    (Event.beginMaintenance j ∈ (MoveUp env k).trace →
      env.beginMaintenance j = some e →
      (MoveUp env k).err = some (cannotBeginMaintenanceMsg j) ∧
      hasHardMutation (MoveUp env k).trace = false) ∧
    (Event.beginMaintenance j ∈ (MoveBelow env k s).trace →
      env.beginMaintenance j = some e →
      (MoveBelow env k s).err = some (cannotBeginMaintenanceMsg j) ∧
      hasHardMutation (MoveBelow env k s).trace = false) ∧
    (Event.beginMaintenance j ∈ (MakeCoMaster env k).trace →
      env.beginMaintenance j = some e →
      (MakeCoMaster env k).err = some (cannotBeginMaintenanceMsg j) ∧
      hasHardMutation (MakeCoMaster env k).trace = false) ∧
    (Event.beginMaintenance j ∈ (ResetSlaveOperation env k).trace →
      env.beginMaintenance j = some e →
      (ResetSlaveOperation env k).err = some (cannotBeginMaintenanceMsg j) ∧
      hasHardMutation (ResetSlaveOperation env k).trace = false) ∧
    (Event.beginMaintenance j ∈ (MatchBelow env k o f1 f2).trace →
      env.beginMaintenance j = some e →
      (MatchBelow env k o f1 f2).err = some (cannotBeginMaintenanceMsg j) ∧
      hasHardMutation (MatchBelow env k o f1 f2).trace = false) ∧
    (env.beginMaintenance k = some e →
      Event.beginMaintenance k ∈ (MakeMaster env k).trace →
      (MakeMaster env k).err = some (cannotBeginMaintenanceMsg k) ∧
      hasHardMutation (MakeMaster env k).trace = false) ∧
    (env.beginMaintenance k = some e →
      Event.beginMaintenance k ∈ (MakeLocalMaster env k).trace →
      (MakeLocalMaster env k).err = some (cannotBeginMaintenanceMsg k) ∧
      hasHardMutation (MakeLocalMaster env k).trace = false) :=
  ⟨fun hm hb => moveUp_leaseFail_aux env k j e hm hb,
    fun hm hb => moveBelow_leaseFail_aux env k s j e hm hb,
    fun hm hb => makeCoMaster_leaseFail_aux env k j e hm hb,
    fun hm hb => resetSlave_leaseFail_aux env k j e hm hb,
    fun hm hb => matchBelow_leaseFail_aux env k o f1 f2 j e hm hb,
    fun hb hm => makeMaster_leaseFail_aux env k e hb hm,
    fun hb hm => makeLocalMaster_leaseFail_aux env k e hb hm⟩

/-- C3 witness: with all leases refused, MoveUp returns the error naming
    its target and has issued no mutation besides the cleanup Starts. -/
theorem lease_failure_behavior_witness :
    (MoveUp envBeginFail kT).err = some (cannotBeginMaintenanceMsg kT) ∧
    hasHardMutation (MoveUp envBeginFail kT).trace = false :=
  (lease_failure_behavior envBeginFail kT kA kM true false kT
    "maintenance refused").1 (by decide) rfl

/-- C8 (amended): lease acquisition order is deterministic by role, not
    by NodeKey order: each multi-node operator attempts at most two
    leases, always the target's key first and then the second node's key
    (MoveUp and MakeCoMaster: the upstream as read from the prober;
    MoveBelow: the sibling parameter), for every environment and key
    pair. -/
theorem lease_acquisition_role_order (env : Env) (k s : InstanceKey) :
    (beginsOf (MoveUp env k).trace = [] ∨
      beginsOf (MoveUp env k).trace = [k] ∨
      beginsOf (MoveUp env k).trace =
        [k, (env.readTopologyInstance
          ((env.readTopologyInstance k).1.masterKey)).1.key]) ∧
    (beginsOf (MoveBelow env k s).trace = [] ∨
      beginsOf (MoveBelow env k s).trace = [k] ∨
      beginsOf (MoveBelow env k s).trace = [k, s]) ∧
    (beginsOf (MakeCoMaster env k).trace = [] ∨
      beginsOf (MakeCoMaster env k).trace = [k] ∨
      beginsOf (MakeCoMaster env k).trace =
        [k, (env.readTopologyInstance
          ((env.readTopologyInstance k).1.masterKey)).1.key]) := by
  refine ⟨?_, ?_, ?_⟩
  · rcases hr : MoveUp env k with ⟨inst, err, tr⟩
    unfold MoveUp moveUpLocked moveUpCleanup at hr
    repeat' split at hr
    all_goals cases hr
    all_goals simp_all [beginsOf]
  · rcases hr : MoveBelow env k s with ⟨inst, err, tr⟩
    unfold MoveBelow moveBelowDrive moveBelowRepoint moveBelowCleanup at hr
    repeat' split at hr
    all_goals cases hr
    all_goals simp_all [beginsOf]
  · rcases hr : MakeCoMaster env k with ⟨inst, err, tr⟩
    unfold MakeCoMaster makeCoMasterCleanup at hr
    repeat' split at hr
    all_goals cases hr
    all_goals simp_all [beginsOf]

end Orchestrator
